import Mathlib

/-!
Shallow embedding of the media-send resolution and delivery pipeline of
SendGIF.send_gif (src/pyrogram/client/methods/messages/media/send_gif.py).

External collaborators (os.path.exists, BaseClient.save_file, utils.decode,
BaseClient.MEDIA_TYPE_ID, BaseClient.resolve_peer, BaseClient.rnd_id, the
remote SendMedia endpoint) live outside the source file under study and are
modelled as explicit environment parameters; the control flow, branch order,
struct layouts and error handling are translated from the source line by line.
-/

namespace PyrogramSendGif

/-- The value of an 8-bit little-endian byte sequence as an unsigned natural. -/
def bytesToNatLE : List Nat → Nat
  | [] => 0
  | b :: rest => b % 256 + 256 * bytesToNatLE rest

/-- Reinterpret an unsigned value of the given byte width as a signed integer
(two-complement), matching the signed struct codes i and q. -/
def toSigned (width : Nat) (v : Nat) : Int :=
  if v < 2 ^ (8 * width - 1) then (v : Int) else (v : Int) - 2 ^ (8 * width)

/-- struct.unpack over a list of little-endian signed field byte-widths.
Python struct.unpack is strict: any length mismatch (too short or trailing
bytes) raises struct.error, modelled as none. -/
def unpackAux : List Nat → List Nat → Option (List Int)
  | [], bs => if bs.isEmpty then some [] else none
  | w :: ws, bs =>
    if bs.length < w then none
    else
      match unpackAux ws (bs.drop w) with
      | none => none
      | some rest => some (toSigned w (bytesToNatLE (bs.take w)) :: rest)

/-- Byte widths of the short struct format <iiqq: two int32 then two int64. -/
def fmtShort : List Nat := [4, 4, 8, 8]

/-- Byte widths of the long struct format <iiqqqqi:
two int32, four int64, one int32. -/
def fmtLong : List Nat := [4, 4, 8, 8, 8, 8, 4]

/-- Line 148 of send_gif.py: the format string is <iiqqqqi when the decoded
length exceeds 24 and <iiqq otherwise, then struct.unpack is applied. -/
def gifUnpack (decoded : List Nat) : Option (List Int) :=
  if decoded.length > 24 then unpackAux fmtLong decoded else unpackAux fmtShort decoded

/-- os.path.basename for POSIX paths: the component after the last slash,
computed structurally on the character list. -/
def basename (p : String) : String :=
  String.mk ((p.data.reverse.takeWhile (fun c => c ≠ ('/' : Char))).reverse)

/-- str.startswith on character lists (the library String.startsWith is
defined by well-founded recursion and is replaced by an equivalent
structural computation). -/
def strStartsWith (s pre : String) : Bool :=
  pre.data.isPrefixOf s.data

/-- Handle returned by BaseClient.save_file; only its id field is read here. -/
structure InputFile where
  id : Int
deriving DecidableEq, Repr

/-- Document attributes attached to an uploaded document, as constructed at
lines 131 to 140 of send_gif.py. -/
inductive DocumentAttribute
  | documentAttributeVideo (supports_streaming : Bool) (duration w h : Int)
  | documentAttributeFilename (file_name : String)
  | documentAttributeAnimated
deriving DecidableEq, Repr

/-- The three protocol media descriptors the resolver can build. -/
inductive InputMedia
  | inputMediaUploadedDocument (file : InputFile) (thumb : Option InputFile)
      (mime_type : String) (attributes : List DocumentAttribute)
  | inputMediaDocumentExternal (url : String)
  | inputMediaDocument (id : Int) (access_hash : Int)
deriving DecidableEq, Repr

/-- Errors raised by the pipeline. FileIdInvalid carries the optional message
given at lines 157 or 159; attributeError models the Python AttributeError
raised by evaluating file.id when file is None (line 183); rpcError is any
other failure of the remote send call, propagated verbatim. -/
inductive PyError
  | fileIdInvalid (message : Option String)
  | attributeError
  | rpcError (code : Nat)
deriving DecidableEq, Repr

/-- Upload side effects, in order of occurrence: save_file on a path
(full upload) or save_file with file_id and file_part (single-part re-upload). -/
inductive UploadOp
  | saveFile (path : String)
  | saveFilePart (path : String) (fileId : Int) (part : Int)
deriving DecidableEq, Repr

/-- Environment of external collaborators consumed by send_gif.
The mediaTypeId field is Modelled from the spec: BaseClient.MEDIA_TYPE_ID is
declared in pyrogram/client/ext, which is not part of the source under study;
the spec describes it as a read-only mapping from type codes to media-type
names and pins code 2 to the name video. It is kept abstract here and
instantiated concretely in witnesses. -/
structure Env where
  pathExists : String → Bool
  saveFile : String → InputFile
  decode : String → Option (List Nat)
  mediaTypeId : Int → Option String
  resolvePeer : Int → Int

/-- Python truthiness of MEDIA_TYPE_ID.get(kind, None): None and the empty
string are falsy. -/
def pyTruthy : Option String → Bool
  | none => false
  | some s => !s.isEmpty

/-- mimetypes.types_map for the .mp4 suffix: the fixed video container type. -/
def mp4Mime : String := "video/mp4"

/-- Lines 124 to 167 of send_gif.py: resolve the gif argument into a media
descriptor. Returns the descriptor together with the file variable (None
unless the local-path branch ran) and the list of uploads performed. -/
def resolveGif (env : Env) (gif : String) (thumb : Option String)
    (duration width height : Int) :
    Except PyError (InputMedia × Option InputFile) × List UploadOp :=
  if env.pathExists gif then
    let thumbOps : List UploadOp :=
      match thumb with
      | none => []
      | some t => [.saveFile t]
    let file := env.saveFile gif
    (.ok (.inputMediaUploadedDocument file (thumb.map env.saveFile) mp4Mime
        [.documentAttributeVideo true duration width height,
         .documentAttributeFilename (basename gif),
         .documentAttributeAnimated],
      some file),
     thumbOps ++ [.saveFile gif])
  else if strStartsWith gif ("http") then
    (.ok (.inputMediaDocumentExternal gif, none), [])
  else
    match env.decode gif with
    | none => (.error (.fileIdInvalid none), [])
    | some decoded =>
      match gifUnpack decoded with
      | none => (.error (.fileIdInvalid none), [])
      | some unpacked =>
        if unpacked.getD 0 0 ≠ 10 then
          if pyTruthy (env.mediaTypeId (unpacked.getD 0 0)) then
            (.error (.fileIdInvalid (some (("The file_id belongs to a ") ++
              ((env.mediaTypeId (unpacked.getD 0 0)).getD (""))))), [])
          else
            (.error (.fileIdInvalid (some (("Unknown media type: ") ++
              toString (unpacked.getD 0 0)))), [])
        else
          (.ok (.inputMediaDocument (unpacked.getD 2 0) (unpacked.getD 3 0), none), [])

/-- A user entity record from the response. -/
structure User where
  id : Int
deriving DecidableEq, Repr

/-- A chat entity record from the response. -/
structure Chat where
  id : Int
deriving DecidableEq, Repr

/-- A message payload embedded in an update. -/
structure Message where
  id : Int
deriving DecidableEq, Repr

/-- Update records in a SendMedia response; the two new-message variants are
those matched at line 185 of send_gif.py. -/
inductive Update
  | updateNewMessage (message : Message)
  | updateNewChannelMessage (message : Message)
  | other (tag : Nat)
deriving DecidableEq, Repr

/-- Outcome of one remote SendMedia call, as observed by send_gif: a success
payload, a FilePartMissing error carrying the part index x, or any other
RPC error. -/
inductive SendResponse
  | updates (upds : List Update) (users : List User) (chats : List Chat)
  | filePartMissing (x : Int)
  | rpcError (code : Nat)
deriving DecidableEq, Repr

/-- The fields of the functions.messages.SendMedia request built at
lines 172 to 180 (caption styling fields are out of scope). -/
structure SendMedia where
  peer : Int
  media : InputMedia
  silent : Option Bool
  reply_to_msg_id : Option Int
  random_id : Int
  reply_markup : Option (List Nat)
deriving DecidableEq, Repr

/-- Final outcome of send_gif: a parsed sent message (the arguments handed to
utils.parse_messages at line 187: the extracted message and the id-keyed user
and chat mappings), a raised error, or still running after the given fuel. -/
inductive SendOutcome
  | sent (message : Message) (users : List (Int × User)) (chats : List (Int × Chat))
  | raised (e : PyError)
  | running
deriving DecidableEq, Repr

/-- Line 175: silent is set to (disable_notification or None); in Python both
None and False are falsy, so only True yields a set flag. -/
def pyOrNone : Option Bool → Option Bool
  | some true => some true
  | _ => none

/-- Lines 184 to 185: the first update whose type is UpdateNewMessage or
UpdateNewChannelMessage, if any. -/
def firstNewMessage : List Update → Option Message
  | [] => none
  | .updateNewMessage m :: _ => some m
  | .updateNewChannelMessage m :: _ => some m
  | .other _ :: rest => firstNewMessage rest

/-- The k-th and following consecutive outputs of the random-id generator,
n of them: the correlation identifiers of n successive send attempts. -/
def attemptIds (rndIds : Nat → Int) : Nat → Nat → List Int
  | _, 0 => []
  | k, n + 1 => rndIds k :: attemptIds rndIds (k + 1) n

/-- Lines 169 to 191 of send_gif.py: the while True send loop. responses k
is the remote outcome of attempt k and rndIds k the value of the k-th
rnd_id() call; fuel bounds the number of iterations modelled (the loop
itself is unbounded). Returns the outcome, the list of SendMedia requests
issued and the list of part re-uploads performed, in order. -/
def sendLoop (env : Env) (responses : Nat → SendResponse) (rndIds : Nat → Int)
    (chatId : Int) (gif : String) (media : InputMedia) (file : Option InputFile)
    (silent : Option Bool) (replyTo : Option Int) (markup : Option (List Nat)) :
    Nat → Nat → SendOutcome × List SendMedia × List UploadOp
  | 0, _ => (.running, [], [])
  | fuel + 1, k =>
    let req : SendMedia :=
      { peer := env.resolvePeer chatId, media := media, silent := silent,
        reply_to_msg_id := replyTo, random_id := rndIds k, reply_markup := markup }
    match responses k with
    | .rpcError c => (.raised (.rpcError c), [req], [])
    | .filePartMissing x =>
      match file with
      | none => (.raised .attributeError, [req], [])
      | some f =>
        let r := sendLoop env responses rndIds chatId gif media (some f) silent
          replyTo markup fuel (k + 1)
        (r.1, req :: r.2.1, .saveFilePart gif f.id x :: r.2.2)
    | .updates upds users chats =>
      match firstNewMessage upds with
      | some m =>
        (.sent m (users.map fun u => (u.id, u)) (chats.map fun c => (c.id, c)),
         [req], [])
      | none =>
        let r := sendLoop env responses rndIds chatId gif media file silent
          replyTo markup fuel (k + 1)
        (r.1, req :: r.2.1, r.2.2)

/-- The whole of SendGIF.send_gif: resolve the gif argument, then run the
send loop. Returns the outcome, the SendMedia requests issued and all upload
operations in order. -/
def send_gif (env : Env) (responses : Nat → SendResponse) (rndIds : Nat → Int)
    (chatId : Int) (gif : String) (duration width height : Int)
    (thumb : Option String) (disable_notification : Option Bool)
    (replyTo : Option Int) (markup : Option (List Nat)) (fuel : Nat) :
    SendOutcome × List SendMedia × List UploadOp :=
  match resolveGif env gif thumb duration width height with
  | (.error e, ops) => (.raised e, [], ops)
  | (.ok (media, file), ops) =>
    let r := sendLoop env responses rndIds chatId gif media file
      (pyOrNone disable_notification) replyTo markup fuel 0
    (r.1, r.2.1, ops ++ r.2.2)

theorem unpackAux_isSome (ws : List Nat) : ∀ bs : List Nat,
    (unpackAux ws bs).isSome = true ↔ bs.length = ws.sum := by
  induction ws with
  | nil =>
    intro bs
    cases bs <;> simp [unpackAux]
  | cons w ws ih =>
    intro bs
    rw [unpackAux]
    by_cases hlt : bs.length < w
    · simp only [hlt, if_true, Option.isSome_none]
      simp only [List.sum_cons]
      constructor
      · intro h; exact absurd h (by simp)
      · intro h; omega
    · simp only [hlt, if_false]
      have hrec := ih (bs.drop w)
      rw [List.length_drop] at hrec
      cases h : unpackAux ws (bs.drop w) with
      | none =>
        rw [h] at hrec
        simp only [Option.isSome_none] at hrec ⊢
        simp only [List.sum_cons]
        constructor
        · intro hc; exact absurd hc (by simp)
        · intro hc
          have hws : bs.length - w = ws.sum := by omega
          simp [hws] at hrec
      | some u =>
        rw [h] at hrec
        simp only [Option.isSome_some, true_iff] at hrec
        simp only [Option.isSome_some, List.sum_cons, true_iff]
        omega

theorem unpackAux_length (ws : List Nat) :
    ∀ bs u, unpackAux ws bs = some u → u.length = ws.length := by
  induction ws with
  | nil =>
    intro bs u h
    cases bs with
    | nil => simp [unpackAux] at h; simp [← h]
    | cons b bs => simp [unpackAux] at h
  | cons w ws ih =>
    intro bs u h
    rw [unpackAux] at h
    by_cases hlt : bs.length < w
    · simp [hlt] at h
    · simp only [hlt, if_false] at h
      cases hrec : unpackAux ws (bs.drop w) with
      | none => rw [hrec] at h; simp at h
      | some rest =>
        rw [hrec] at h
        simp only [Option.some.injEq] at h
        subst h
        simp [ih _ _ hrec]

theorem gifUnpack_none (decoded : List Nat) (h24 : decoded.length ≠ 24)
    (h44 : decoded.length ≠ 44) : gifUnpack decoded = none := by
  rw [gifUnpack]
  by_cases hl : decoded.length > 24
  · simp only [hl, if_true]
    cases h : unpackAux fmtLong decoded with
    | none => rfl
    | some u =>
      have := (unpackAux_isSome fmtLong decoded).mp (by rw [h]; rfl)
      simp [fmtLong] at this
      omega
  · simp only [hl, if_false]
    cases h : unpackAux fmtShort decoded with
    | none => rfl
    | some u =>
      have := (unpackAux_isSome fmtShort decoded).mp (by rw [h]; rfl)
      simp [fmtShort] at this
      omega

/-- A concrete collaborator environment for witnesses and counterexamples:
no local file exists, decode always returns the given byte list, and the
media-type table holds the entry pinned by the spec, code 2 to video. -/
def envWith (bs : Option (List Nat)) : Env :=
  { pathExists := fun _ => false,
    saveFile := fun _ => ⟨0⟩,
    decode := fun _ => bs,
    mediaTypeId := fun k => if k = 2 then some ("video") else none,
    resolvePeer := fun x => x }

/-- A concrete environment in which every path exists locally. -/
def localEnv : Env :=
  { pathExists := fun _ => true,
    saveFile := fun _ => ⟨100⟩,
    decode := fun _ => none,
    mediaTypeId := fun _ => none,
    resolvePeer := fun x => x }

/-- Claim C3: unpack selects the 4-field little-endian short layout when the
byte length is at most 24 and the 7-field long layout when it exceeds 24;
any byte length that does not exactly match the selected layout size
(24 or 44 bytes) makes resolution fail with the invalid-identifier error. -/
theorem c3_layout_selection (decoded : List Nat) :
    (decoded.length ≤ 24 →
      gifUnpack decoded = unpackAux fmtShort decoded ∧
      ((gifUnpack decoded).isSome = true ↔ decoded.length = 24) ∧
      ∀ u, gifUnpack decoded = some u → u.length = 4) ∧
    (24 < decoded.length →
      gifUnpack decoded = unpackAux fmtLong decoded ∧
      ((gifUnpack decoded).isSome = true ↔ decoded.length = 44) ∧
      ∀ u, gifUnpack decoded = some u → u.length = 7) ∧
    (decoded.length ≠ 24 → decoded.length ≠ 44 →
      ∀ env gif thumb d w h, env.pathExists gif = false →
        strStartsWith gif ("http") = false → env.decode gif = some decoded →
        (resolveGif env gif thumb d w h).1 = .error (.fileIdInvalid none)) := by
  refine ⟨?_, ?_, ?_⟩
  · intro hle
    have heq : gifUnpack decoded = unpackAux fmtShort decoded := by
      rw [gifUnpack]; simp [Nat.not_lt.mpr hle]
    refine ⟨heq, ?_, ?_⟩
    · rw [heq, unpackAux_isSome]; simp [fmtShort]
    · intro u hu
      rw [heq] at hu
      have := unpackAux_length fmtShort decoded u hu
      simpa [fmtShort] using this
  · intro hgt
    have heq : gifUnpack decoded = unpackAux fmtLong decoded := by
      rw [gifUnpack]; simp [hgt]
    refine ⟨heq, ?_, ?_⟩
    · rw [heq, unpackAux_isSome]; simp [fmtLong]
    · intro u hu
      rw [heq] at hu
      have := unpackAux_length fmtLong decoded u hu
      simpa [fmtLong] using this
  · intro h24 h44 env gif thumb d w h hp hh hd
    have hn := gifUnpack_none decoded h24 h44
    simp [resolveGif, hp, hh, hd, hn]

/-- Witness for c3_layout_selection: a 24-byte input unpacks with the short
layout, a 44-byte input with the long layout, and a 30-byte input makes
resolution fail with FileIdInvalid. -/
theorem c3_layout_selection_witness :
    gifUnpack (List.replicate 24 0) = unpackAux fmtShort (List.replicate 24 0) ∧
    ((gifUnpack (List.replicate 24 0)).isSome = true ↔
      (List.replicate 24 0).length = 24) ∧
    gifUnpack (List.replicate 44 0) = unpackAux fmtLong (List.replicate 44 0) ∧
    (resolveGif (envWith (some (List.replicate 30 0))) ("bad") none 0 0 0).1 =
      .error (.fileIdInvalid none) := by
  refine ⟨((c3_layout_selection (List.replicate 24 0)).1 (by decide)).1,
    ((c3_layout_selection (List.replicate 24 0)).1 (by decide)).2.1,
    ((c3_layout_selection (List.replicate 44 0)).2.1 (by decide)).1,
    (c3_layout_selection (List.replicate 30 0)).2.2 (by decide) (by decide)
      (envWith (some (List.replicate 30 0))) ("bad") none 0 0 0 rfl (by decide) rfl⟩

/-- A 44-byte long-form identifier whose seven little-endian signed fields
decode to kind 10, dc_id 1, a 111, b 222, media_id 77, access_hash 88,
trailer 0. -/
def c2Bytes : List Nat :=
  [10, 0, 0, 0, 1, 0, 0, 0,
   111, 0, 0, 0, 0, 0, 0, 0,
   222, 0, 0, 0, 0, 0, 0, 0,
   77, 0, 0, 0, 0, 0, 0, 0,
   88, 0, 0, 0, 0, 0, 0, 0,
   0, 0, 0, 0]

/-- Counterexample to claim C2 as stated: for a 7-field long-form identifier
with kind 10, the code builds InputDocument from positions 3 and 4 of the
layout (fields a and b, here 111 and 222), not from the fields named
media_id and access_hash at positions 5 and 6 (here 77 and 88). -/
theorem c2_long_form_counterexample :
    gifUnpack c2Bytes = some [10, 1, 111, 222, 77, 88, 0] ∧
    (resolveGif (envWith (some c2Bytes)) ("AgAD") none 0 0 0).1 =
      .ok (.inputMediaDocument 111 222, none) ∧
    (resolveGif (envWith (some c2Bytes)) ("AgAD") none 0 0 0).1 ≠
      .ok (.inputMediaDocument 77 88, none) := by
  refine ⟨by decide, by rfl, ?_⟩
  intro h
  rw [show (resolveGif (envWith (some c2Bytes)) ("AgAD") none 0 0 0).1 =
    .ok (.inputMediaDocument 111 222, none) from rfl] at h
  simp at h

/-- Claim C2, amended: for every identifier that decodes with kind 10, the
resolution yields the referenced-document descriptor whose id and
access_hash are the values at positions 3 and 4 of the decoded layout
(media_id and access_hash in the short form; fields a and b in the 7-field
long form), and no upload is triggered. -/
theorem c2_document_kind_resolution (env : Env) (gif : String)
    (thumb : Option String) (d w h : Int) (decoded : List Nat) (u : List Int)
    (hp : env.pathExists gif = false) (hh : strStartsWith gif ("http") = false)
    (hd : env.decode gif = some decoded) (hu : gifUnpack decoded = some u)
    (hk : u.getD 0 0 = 10) :
    resolveGif env gif thumb d w h =
      (.ok (.inputMediaDocument (u.getD 2 0) (u.getD 3 0), none), []) := by
  simp [resolveGif, hp, hh, hd, hu, hk]
  intro hcon
  exact absurd (by simpa [List.getD] using hk) hcon

/-- Witness for c2_document_kind_resolution: a short-form identifier with
kind 10, media_id 7 and access_hash 9 resolves to the referenced document
with id 7 and access_hash 9 and performs no upload. -/
theorem c2_document_kind_resolution_witness :
    resolveGif (envWith (some [10, 0, 0, 0, 2, 0, 0, 0,
        7, 0, 0, 0, 0, 0, 0, 0, 9, 0, 0, 0, 0, 0, 0, 0])) ("AgAD") none 0 0 0 =
      (.ok (.inputMediaDocument 7 9, none), []) := by
  have h := c2_document_kind_resolution (envWith (some [10, 0, 0, 0, 2, 0, 0, 0,
      7, 0, 0, 0, 0, 0, 0, 0, 9, 0, 0, 0, 0, 0, 0, 0])) ("AgAD") none 0 0 0
    [10, 0, 0, 0, 2, 0, 0, 0, 7, 0, 0, 0, 0, 0, 0, 0, 9, 0, 0, 0, 0, 0, 0, 0]
    [10, 2, 7, 9] rfl (by decide) rfl (by decide) (by decide)
  simpa using h

/-- Claim C4: resolution path selection is deterministic and order-sensitive:
the local-path branch is tested first, then the HTTP-prefix branch, then the
opaque-identifier branch; a string that denotes an existing local file
resolves via the local-path branch (upload), never as an external URL. -/
theorem c4_resolution_priority (env : Env) (gif : String) (thumb : Option String)
    (duration width height : Int) :
    (env.pathExists gif = true →
      ((resolveGif env gif thumb duration width height).1 =
        .ok (.inputMediaUploadedDocument (env.saveFile gif) (thumb.map env.saveFile)
          mp4Mime
          [.documentAttributeVideo true duration width height,
           .documentAttributeFilename (basename gif),
           .documentAttributeAnimated], some (env.saveFile gif)) ∧
       UploadOp.saveFile gif ∈ (resolveGif env gif thumb duration width height).2 ∧
       ∀ url, (resolveGif env gif thumb duration width height).1 ≠
         .ok (.inputMediaDocumentExternal url, none))) ∧
    (env.pathExists gif = false → strStartsWith gif ("http") = true →
      resolveGif env gif thumb duration width height =
        (.ok (.inputMediaDocumentExternal gif, none), [])) ∧
    (env.pathExists gif = false → strStartsWith gif ("http") = false →
      env.decode gif = none →
      resolveGif env gif thumb duration width height =
        (.error (.fileIdInvalid none), [])) := by
  refine ⟨?_, ?_, ?_⟩
  · intro hp
    refine ⟨by simp [resolveGif, hp], ?_, ?_⟩
    · cases thumb <;> simp [resolveGif, hp]
    · intro url
      simp [resolveGif, hp]
  · intro hp hh
    simp [resolveGif, hp, hh]
  · intro hp hh hd
    simp [resolveGif, hp, hh, hd]

/-- Witness for c4_resolution_priority: a string that exists as a local file
and also starts with http resolves via the local-path branch, uploads the
file, and is not resolved as an external URL. -/
theorem c4_resolution_priority_witness :
    localEnv.pathExists ("http://clip.mp4") = true ∧
    strStartsWith ("http://clip.mp4") ("http") = true ∧
    (resolveGif localEnv ("http://clip.mp4") none 0 0 0).1 =
      .ok (.inputMediaUploadedDocument (localEnv.saveFile ("http://clip.mp4"))
        ((none : Option String).map localEnv.saveFile) mp4Mime
        [.documentAttributeVideo true 0 0 0,
         .documentAttributeFilename (basename ("http://clip.mp4")),
         .documentAttributeAnimated], some (localEnv.saveFile ("http://clip.mp4"))) ∧
    UploadOp.saveFile ("http://clip.mp4") ∈
      (resolveGif localEnv ("http://clip.mp4") none 0 0 0).2 ∧
    (resolveGif localEnv ("http://clip.mp4") none 0 0 0).1 ≠
      .ok (.inputMediaDocumentExternal ("http://clip.mp4"), none) := by
  have h := (c4_resolution_priority localEnv ("http://clip.mp4") none 0 0 0).1 rfl
  exact ⟨rfl, by decide, h.1, h.2.1, h.2.2 ("http://clip.mp4")⟩

/-- Claim C7: every local-path resolution builds the uploaded-document
descriptor with exactly the attribute list video (streaming, caller duration,
width, height), filename (base name of the path), animated (no parameters),
and with the fixed mp4 video mime type. -/
theorem c7_uploaded_document_shape (env : Env) (gif : String)
    (thumb : Option String) (duration width height : Int)
    (hp : env.pathExists gif = true) :
    (resolveGif env gif thumb duration width height).1 =
      .ok (.inputMediaUploadedDocument (env.saveFile gif) (thumb.map env.saveFile)
        mp4Mime
        [.documentAttributeVideo true duration width height,
         .documentAttributeFilename (basename gif),
         .documentAttributeAnimated], some (env.saveFile gif)) ∧
    mp4Mime = "video/mp4" := by
  exact ⟨by simp [resolveGif, hp], rfl⟩

/-- Witness for c7_uploaded_document_shape at a concrete local path with
duration 5 and size 100 by 100; the filename attribute evaluates to the
base name clip.mp4. -/
theorem c7_uploaded_document_shape_witness :
    ((resolveGif localEnv ("/tmp/clip.mp4") none 5 100 100).1 =
      .ok (.inputMediaUploadedDocument (localEnv.saveFile ("/tmp/clip.mp4"))
        ((none : Option String).map localEnv.saveFile) mp4Mime
        [.documentAttributeVideo true 5 100 100,
         .documentAttributeFilename (basename ("/tmp/clip.mp4")),
         .documentAttributeAnimated], some (localEnv.saveFile ("/tmp/clip.mp4"))) ∧
      mp4Mime = "video/mp4") ∧
    basename ("/tmp/clip.mp4") = "clip.mp4" :=
  ⟨c7_uploaded_document_shape localEnv ("/tmp/clip.mp4") none 5 100 100 rfl,
   by decide⟩

/-- Claim C6: for a decoded identifier with a kind other than 10, resolution
fails with the wrong-media-type message naming the mapped type when the
media-type table has a (nonempty) name for the kind, and with the
unknown-media-type message carrying the raw kind code otherwise; no send
request is issued and no upload performed. -/
theorem c6_wrong_kind_errors (env : Env) (responses : Nat → SendResponse)
    (rndIds : Nat → Int) (chatId : Int) (gif : String) (thumb : Option String)
    (d w h : Int) (dn : Option Bool) (replyTo : Option Int)
    (markup : Option (List Nat)) (fuel : Nat) (decoded : List Nat) (u : List Int)
    (hp : env.pathExists gif = false) (hh : strStartsWith gif ("http") = false)
    (hd : env.decode gif = some decoded) (hu : gifUnpack decoded = some u)
    (hk : u.getD 0 0 ≠ 10) :
    (∀ name, env.mediaTypeId (u.getD 0 0) = some name → name ≠ ("") →
      resolveGif env gif thumb d w h =
        (.error (.fileIdInvalid (some (("The file_id belongs to a ") ++ name))),
         [])) ∧
    (env.mediaTypeId (u.getD 0 0) = none →
      resolveGif env gif thumb d w h =
        (.error (.fileIdInvalid (some (("Unknown media type: ") ++
          toString (u.getD 0 0)))), [])) ∧
    (send_gif env responses rndIds chatId gif d w h thumb dn replyTo
      markup fuel).2.1 = [] ∧
    (send_gif env responses rndIds chatId gif d w h thumb dn replyTo
      markup fuel).2.2 = [] := by
  have hk2 : ¬ u[0]?.getD 0 = 10 := by simpa [List.getD] using hk
  refine ⟨?_, ?_, ?_⟩
  · intro name hm hne
    have hne2 : name.isEmpty = false := by
      cases hie : name.isEmpty with
      | false => rfl
      | true => exact absurd (String.isEmpty_iff name |>.mp hie) hne
    have hm2 : env.mediaTypeId (u[0]?.getD 0) = some name := by
      simpa [List.getD] using hm
    simp [resolveGif, hp, hh, hd, hu, hk2, hm2, pyTruthy, hne2, List.getD]
  · intro hm
    have hm2 : env.mediaTypeId (u[0]?.getD 0) = none := by
      simpa [List.getD] using hm
    simp [resolveGif, hp, hh, hd, hu, hk2, hm2, pyTruthy]
  · have hres : ∃ e, resolveGif env gif thumb d w h = (.error e, []) := by
      cases hm : env.mediaTypeId (u[0]?.getD 0) with
      | none =>
        exact ⟨.fileIdInvalid (some (("Unknown media type: ") ++
            toString (u[0]?.getD 0))),
          by simp [resolveGif, hp, hh, hd, hu, hk2, hm, pyTruthy]⟩
      | some name =>
        cases hie : name.isEmpty with
        | true =>
          exact ⟨.fileIdInvalid (some (("Unknown media type: ") ++
              toString (u[0]?.getD 0))),
            by simp [resolveGif, hp, hh, hd, hu, hk2, hm, pyTruthy, hie]⟩
        | false =>
          exact ⟨.fileIdInvalid (some (("The file_id belongs to a ") ++ name)),
            by simp [resolveGif, hp, hh, hd, hu, hk2, hm, pyTruthy, hie]⟩
    obtain ⟨e, he⟩ := hres
    constructor <;> simp [send_gif, he]

/-- Witness for c6_wrong_kind_errors: a short-form identifier decoding to
kind 2 fails with the message naming video (the table entry pinned by the
spec), and with the unknown-media-type message under a table with no entry;
in both cases no request and no upload happen. -/
theorem c6_wrong_kind_errors_witness :
    resolveGif (envWith (some [2, 0, 0, 0, 2, 0, 0, 0,
        7, 0, 0, 0, 0, 0, 0, 0, 9, 0, 0, 0, 0, 0, 0, 0])) ("AgAC") none 0 0 0 =
      (.error (.fileIdInvalid (some (("The file_id belongs to a ") ++ ("video")))),
       []) ∧
    (send_gif (envWith (some [2, 0, 0, 0, 2, 0, 0, 0,
        7, 0, 0, 0, 0, 0, 0, 0, 9, 0, 0, 0, 0, 0, 0, 0]))
      (fun _ => .rpcError 0) (fun _ => 0) 1 ("AgAC") 0 0 0 none none none
      none 3).2.1 = [] := by
  have h := c6_wrong_kind_errors (envWith (some [2, 0, 0, 0, 2, 0, 0, 0,
      7, 0, 0, 0, 0, 0, 0, 0, 9, 0, 0, 0, 0, 0, 0, 0]))
    (fun _ => .rpcError 0) (fun _ => 0) 1 ("AgAC") none 0 0 0 none none none 3
    [2, 0, 0, 0, 2, 0, 0, 0, 7, 0, 0, 0, 0, 0, 0, 0, 9, 0, 0, 0, 0, 0, 0, 0]
    [2, 2, 7, 9] rfl (by decide) rfl (by decide) (by decide)
  exact ⟨h.1 ("video") (by decide) (by decide), h.2.2.1⟩

theorem sendLoop_random_ids (env : Env) (responses : Nat → SendResponse)
    (rndIds : Nat → Int) (chatId : Int) (gif : String) (media : InputMedia)
    (file : Option InputFile) (silent : Option Bool) (replyTo : Option Int)
    (markup : Option (List Nat)) :
    ∀ fuel k,
      (sendLoop env responses rndIds chatId gif media file silent replyTo markup
        fuel k).2.1.map (fun r => r.random_id) =
      attemptIds rndIds k
        (sendLoop env responses rndIds chatId gif media file silent replyTo markup
          fuel k).2.1.length := by
  intro fuel
  induction fuel with
  | zero => intro k; simp [sendLoop, attemptIds]
  | succ fuel ih =>
    intro k
    rw [sendLoop]
    cases responses k with
    | rpcError c => simp [attemptIds]
    | filePartMissing x =>
      cases file with
      | none => simp [attemptIds]
      | some f => simp [attemptIds, ih (k + 1)]
    | updates upds users chats =>
      cases h : firstNewMessage upds with
      | some m => simp [h, attemptIds]
      | none => simp [h, attemptIds, ih (k + 1)]

theorem sendLoop_silent (env : Env) (responses : Nat → SendResponse)
    (rndIds : Nat → Int) (chatId : Int) (gif : String) (media : InputMedia)
    (file : Option InputFile) (silent : Option Bool) (replyTo : Option Int)
    (markup : Option (List Nat)) :
    ∀ fuel k,
      (sendLoop env responses rndIds chatId gif media file silent replyTo markup
        fuel k).2.1.map (fun r => r.silent) =
      List.replicate
        (sendLoop env responses rndIds chatId gif media file silent replyTo markup
          fuel k).2.1.length silent := by
  intro fuel
  induction fuel with
  | zero => intro k; simp [sendLoop]
  | succ fuel ih =>
    intro k
    rw [sendLoop]
    cases responses k with
    | rpcError c => simp
    | filePartMissing x =>
      cases file with
      | none => simp
      | some f => simp [List.replicate_succ, ih (k + 1)]
    | updates upds users chats =>
      cases h : firstNewMessage upds with
      | some m => simp [h]
      | none => simp [h, List.replicate_succ, ih (k + 1)]

/-- The server behaviour used against claim C1: the first send attempt fails
with a missing part 3 and every later attempt succeeds with one new-message
update. -/
def c1Resp : Nat → SendResponse := fun k =>
  if k = 0 then .filePartMissing 3 else .updates [.updateNewMessage ⟨5⟩] [] []

/-- Counterexample to claim C1 as stated: a send that fails once with a
missing part 3 and then succeeds performs exactly one part re-upload and one
additional send attempt, but rnd_id() is evaluated inside the loop, so the
two attempts carry the 0th and 1st outputs of the generator, which differ
here; the correlation identifier is not reused across the retry. -/
theorem c1_retry_random_id_counterexample :
    (send_gif localEnv c1Resp (fun k => (k : Int)) 1 ("g.mp4") 0 0 0 none none
      none none 5).2.1.map (fun r => r.random_id) = [0, 1] ∧
    (send_gif localEnv c1Resp (fun k => (k : Int)) 1 ("g.mp4") 0 0 0 none none
      none none 5).1 = .sent ⟨5⟩ [] [] ∧
    (send_gif localEnv c1Resp (fun k => (k : Int)) 1 ("g.mp4") 0 0 0 none none
      none none 5).2.2 =
      [.saveFile ("g.mp4"), .saveFilePart ("g.mp4") 100 3] ∧
    (0 : Int) ≠ 1 := by
  refine ⟨by decide, by decide, by decide, by decide⟩

/-- Claim C1, amended: a fresh correlation identifier is generated on every
send attempt, including each retry of the same logical send: the i-th
request issued carries the i-th output of the random-id generator. -/
theorem c1_fresh_random_id_each_attempt (env : Env) (responses : Nat → SendResponse)
    (rndIds : Nat → Int) (chatId : Int) (gif : String)
    (duration width height : Int) (thumb : Option String) (dn : Option Bool)
    (replyTo : Option Int) (markup : Option (List Nat)) (fuel : Nat) :
    (send_gif env responses rndIds chatId gif duration width height thumb dn
      replyTo markup fuel).2.1.map (fun r => r.random_id) =
    attemptIds rndIds 0
      (send_gif env responses rndIds chatId gif duration width height thumb dn
        replyTo markup fuel).2.1.length := by
  unfold send_gif
  cases hres : resolveGif env gif thumb duration width height with
  | mk r ops =>
    cases r with
    | error e => simp [attemptIds]
    | ok mf =>
      cases mf with
      | mk media file =>
        simpa using sendLoop_random_ids env responses rndIds chatId gif media
          file (pyOrNone dn) replyTo markup fuel 0

/-- Counterexample to claim C5 as stated: when the descriptor came from the
HTTP branch (no upload, no handle), a missing-part failure is not recovered
by a part re-upload and a retry; the handler dereferences the absent handle
and the call aborts with an attribute error, with no part re-upload. -/
theorem c5_missing_handle_counterexample :
    (send_gif (envWith none) (fun _ => .filePartMissing 3) (fun _ => 0) 1
      ("http://a") 0 0 0 none none none none 5).1 = .raised .attributeError ∧
    (send_gif (envWith none) (fun _ => .filePartMissing 3) (fun _ => 0) 1
      ("http://a") 0 0 0 none none none none 5).2.2 = [] := by
  refine ⟨by decide, by decide⟩

/-- Claim C5, amended: when an upload handle exists, a missing-part failure
at attempt k re-uploads exactly that part and re-issues the send, with no
retry bound (with perpetual missing-part failures the loop runs forever and
raises nothing), and every other remote failure propagates to the caller
unchanged after exactly one attempt, with no part re-upload. -/
theorem c5_missing_part_recovery (env : Env) (responses : Nat → SendResponse)
    (rndIds : Nat → Int) (chatId : Int) (gif : String) (media : InputMedia)
    (file : Option InputFile) (f : InputFile) (silent : Option Bool)
    (replyTo : Option Int) (markup : Option (List Nat)) (fuel k : Nat)
    (x : Int) (c : Nat) :
    (responses k = .filePartMissing x →
      sendLoop env responses rndIds chatId gif media (some f) silent replyTo
          markup (fuel + 1) k =
        ((sendLoop env responses rndIds chatId gif media (some f) silent replyTo
            markup fuel (k + 1)).1,
         { peer := env.resolvePeer chatId, media := media, silent := silent,
           reply_to_msg_id := replyTo, random_id := rndIds k,
           reply_markup := markup } ::
           (sendLoop env responses rndIds chatId gif media (some f) silent
             replyTo markup fuel (k + 1)).2.1,
         .saveFilePart gif f.id x ::
           (sendLoop env responses rndIds chatId gif media (some f) silent
             replyTo markup fuel (k + 1)).2.2)) ∧
    ((∀ j, responses j = .filePartMissing x) →
      ∀ n j, (sendLoop env responses rndIds chatId gif media (some f) silent
        replyTo markup n j).1 = .running) ∧
    (responses k = .rpcError c →
      sendLoop env responses rndIds chatId gif media file silent replyTo markup
          (fuel + 1) k =
        (.raised (.rpcError c),
         [{ peer := env.resolvePeer chatId, media := media, silent := silent,
            reply_to_msg_id := replyTo, random_id := rndIds k,
            reply_markup := markup }], [])) := by
  refine ⟨?_, ?_, ?_⟩
  · intro hr
    rw [sendLoop, hr]
  · intro hall n
    induction n with
    | zero => intro j; simp [sendLoop]
    | succ n ih =>
      intro j
      rw [sendLoop, hall j]
      simpa using ih (j + 1)
  · intro hr
    rw [sendLoop, hr]

/-- Witness for c5_missing_part_recovery: with an existing handle, one
missing-part failure yields one part re-upload and a retried request; with
perpetual missing-part failures the loop is still running after five
iterations; and an unrelated rpc failure is raised after a single request
with no re-upload. -/
theorem c5_missing_part_recovery_witness :
    sendLoop localEnv (fun _ => .filePartMissing 3) (fun _ => 7) 1 ("g.mp4")
        (.inputMediaDocumentExternal ("u")) (some ⟨100⟩) none none none 1 0 =
      (.running,
       [{ peer := 1, media := .inputMediaDocumentExternal ("u"), silent := none,
          reply_to_msg_id := none, random_id := 7, reply_markup := none }],
       [.saveFilePart ("g.mp4") 100 3]) ∧
    (sendLoop localEnv (fun _ => .filePartMissing 3) (fun _ => 7) 1 ("g.mp4")
      (.inputMediaDocumentExternal ("u")) (some ⟨100⟩) none none none 5 0).1 =
      .running ∧
    sendLoop localEnv (fun _ => .rpcError 2) (fun _ => 7) 1 ("g.mp4")
        (.inputMediaDocumentExternal ("u")) (some ⟨100⟩) none none none 1 0 =
      (.raised (.rpcError 2),
       [{ peer := 1, media := .inputMediaDocumentExternal ("u"), silent := none,
          reply_to_msg_id := none, random_id := 7, reply_markup := none }],
       []) := by
  have h1 := (c5_missing_part_recovery localEnv (fun _ => .filePartMissing 3)
    (fun _ => 7) 1 ("g.mp4") (.inputMediaDocumentExternal ("u")) none ⟨100⟩
    none none none 0 0 3 2).1 rfl
  have h2 := (c5_missing_part_recovery localEnv (fun _ => .filePartMissing 3)
    (fun _ => 7) 1 ("g.mp4") (.inputMediaDocumentExternal ("u")) none ⟨100⟩
    none none none 0 0 3 2).2.1 (fun j => rfl) 5 0
  have h3 := (c5_missing_part_recovery localEnv (fun _ => .rpcError 2)
    (fun _ => 7) 1 ("g.mp4") (.inputMediaDocumentExternal ("u")) none ⟨100⟩
    none none none 0 0 3 2).2.2 rfl
  exact ⟨h1.trans (by decide), h2, h3.trans (by decide)⟩

/-- Claim C8, evaluated at the failing input: when every send succeeds but
the response carries no new-message update record, the loop silently
re-issues the send on every iteration and never terminates; the condition is
not reported to the caller. -/
theorem c8_no_new_message_update_loops (env : Env) (rndIds : Nat → Int)
    (chatId : Int) (gif : String) (media : InputMedia) (file : Option InputFile)
    (silent : Option Bool) (replyTo : Option Int) (markup : Option (List Nat)) :
    ∀ fuel k,
      (sendLoop env (fun _ => .updates [.other 0] [] []) rndIds chatId gif media
        file silent replyTo markup fuel k).1 = .running ∧
      (sendLoop env (fun _ => .updates [.other 0] [] []) rndIds chatId gif media
        file silent replyTo markup fuel k).2.1.length = fuel := by
  intro fuel
  induction fuel with
  | zero => intro k; simp [sendLoop]
  | succ fuel ih =>
    intro k
    rw [sendLoop]
    simpa [firstNewMessage] using ih (k + 1)

/-- Claim C9: when the resolved descriptor carries no upload handle (the URL
and opaque-identifier paths) and the remote send fails with a missing part,
the recovery branch dereferences the absent handle: the operation aborts
with an attribute error after a single request, the missing-part failure is
not propagated, and no part re-upload happens. -/
theorem c9_none_handle_attribute_error (env : Env) (responses : Nat → SendResponse)
    (rndIds : Nat → Int) (chatId : Int) (gif : String)
    (duration width height : Int) (thumb : Option String) (dn : Option Bool)
    (replyTo : Option Int) (markup : Option (List Nat)) (fuel : Nat) (x : Int)
    (media : InputMedia) (ops : List UploadOp)
    (hres : resolveGif env gif thumb duration width height = (.ok (media, none), ops))
    (hr : responses 0 = .filePartMissing x) :
    (send_gif env responses rndIds chatId gif duration width height thumb dn
      replyTo markup (fuel + 1)).1 = .raised .attributeError ∧
    (send_gif env responses rndIds chatId gif duration width height thumb dn
      replyTo markup (fuel + 1)).2.1.length = 1 ∧
    (send_gif env responses rndIds chatId gif duration width height thumb dn
      replyTo markup (fuel + 1)).2.2 = ops := by
  unfold send_gif
  rw [hres]
  simp [sendLoop, hr]

/-- Witness for c9_none_handle_attribute_error: an HTTP URL input followed by
a missing-part failure aborts with the attribute error after one request and
performs no upload at all. -/
theorem c9_none_handle_attribute_error_witness :
    (send_gif (envWith none) (fun _ => .filePartMissing 3) (fun _ => 0) 1
      ("http://a") 0 0 0 none none none none 3).1 = .raised .attributeError ∧
    (send_gif (envWith none) (fun _ => .filePartMissing 3) (fun _ => 0) 1
      ("http://a") 0 0 0 none none none none 3).2.1.length = 1 ∧
    (send_gif (envWith none) (fun _ => .filePartMissing 3) (fun _ => 0) 1
      ("http://a") 0 0 0 none none none none 3).2.2 = [] := by
  have h := c9_none_handle_attribute_error (envWith none)
    (fun _ => .filePartMissing 3) (fun _ => 0) 1 ("http://a") 0 0 0 none none
    none none 2 3 (.inputMediaDocumentExternal ("http://a")) [] rfl rfl
  exact ⟨h.1, h.2.1, h.2.2⟩

/-- Claim C10: a call with disable_notification set to False produces exactly
the same run as one with disable_notification absent, every issued request
carries silent equal to (disable_notification or None), and the flag is set
only for the value True. -/
theorem c10_silent_flag (env : Env) (responses : Nat → SendResponse)
    (rndIds : Nat → Int) (chatId : Int) (gif : String)
    (duration width height : Int) (thumb : Option String) (replyTo : Option Int)
    (markup : Option (List Nat)) (fuel : Nat) (dn : Option Bool) :
    send_gif env responses rndIds chatId gif duration width height thumb
        (some false) replyTo markup fuel =
      send_gif env responses rndIds chatId gif duration width height thumb none
        replyTo markup fuel ∧
    (send_gif env responses rndIds chatId gif duration width height thumb dn
      replyTo markup fuel).2.1.map (fun r => r.silent) =
      List.replicate
        (send_gif env responses rndIds chatId gif duration width height thumb dn
          replyTo markup fuel).2.1.length (pyOrNone dn) ∧
    pyOrNone (some false) = none ∧ pyOrNone none = none ∧
    pyOrNone (some true) = some true := by
  refine ⟨rfl, ?_, rfl, rfl, rfl⟩
  unfold send_gif
  cases hres : resolveGif env gif thumb duration width height with
  | mk r ops =>
    cases r with
    | error e => simp
    | ok mf =>
      cases mf with
      | mk media file =>
        simpa using sendLoop_silent env responses rndIds chatId gif media file
          (pyOrNone dn) replyTo markup fuel 0

end PyrogramSendGif
